import Mathlib

/-!
Verification of the DeFi yield aggregator core against its specification.

The definitions below are shallow embeddings of the Go source:
* `internal/services/analytics` (scoring, risk, yield-gap profit),
* `internal/services/opportunity` (asset normalization for yield-gap grouping),
* `internal/repository/elasticsearch` (opportunity upsert and expiry sweep),
* `internal/api/websocket/hub.go` (fan-out hub broadcasts).

Go float64 arithmetic is modelled over ℝ where logarithms occur and over ℚ
where the arithmetic is exact; machine times are modelled as integers.
-/

namespace DefiYield

/-! ## Analytics service (package analytics) -/

/-- Chain security ratings table (0-100), from `chainSecurityRatings` in the
analytics package. -/
def chainSecurityRatings : List (String × ℚ) :=
  [("ethereum", 95), ("bsc", 75), ("polygon", 80), ("arbitrum", 85),
   ("optimism", 85), ("avalanche", 80), ("fantom", 70), ("base", 80),
   ("gnosis", 75), ("celo", 70), ("moonbeam", 65), ("moonriver", 60),
   ("aurora", 65), ("cronos", 60), ("harmony", 50), ("metis", 60),
   ("boba", 55), ("kava", 65), ("solana", 75)]

/-- Scoring weights, from `config.ScoringConfig`. -/
structure ScoringConfig where
  apyWeight : ℝ
  tvlWeight : ℝ
  stabilityWeight : ℝ
  trendWeight : ℝ

/-- The pool fields read by the scoring and risk functions
(`models.Pool`, decimal fields read as float64). -/
structure Pool where
  chain : String
  apy : ℝ
  tvl : ℝ
  score : ℝ
  apyMean30d : ℝ
  apyChange24h : ℝ

/-- `estimateGasCost`: per-chain gas cost table with a 10 USD default for
unknown chains. -/
def gasCosts : List (String × ℚ) :=
  [("ethereum", 50), ("arbitrum", 1), ("optimism", 1), ("polygon", 1/10),
   ("bsc", 1/2), ("avalanche", 1/2), ("fantom", 1/10), ("base", 1/2),
   ("gnosis", 1/10)]

/-- `estimateGasCost(chain)` from the analytics package. -/
def estimateGasCost (chain : String) : ℚ :=
  ((gasCosts.lookup chain).getD 10)

/-- `CalculateYieldGapProfit(lowAPY, highAPY, tvl, sourceChain, targetChain)`:
returns the pair (profit, minDays).  The `tvl` argument is accepted but unused,
as in the source. -/
def calculateYieldGapProfit (lowAPY highAPY : ℚ) (tvl : ℚ)
    (sourceChain targetChain : String) : ℚ × ℤ :=
  let apyDiff := highAPY - lowAPY
  if apyDiff ≤ 0 then (0, 0)
  else
    let gasCostUSD := estimateGasCost sourceChain + estimateGasCost targetChain
    let minInvestment := gasCostUSD * 365 / (apyDiff * 7)
    let minDays : ℤ := ⌈gasCostUSD * 365 / (apyDiff * 10000)⌉
    let profit := 10000 * apyDiff / 100 / 365 * 30 - gasCostUSD
    if profit < 0 ∨ minInvestment > 100000 then (0, 0) else (profit, minDays)

/-- Risk tiers, from `models.RiskLevel`. -/
inductive RiskLevel where
  | low
  | medium
  | high
deriving DecidableEq

/-- Rank of a risk tier in the order low < medium < high. -/
def RiskLevel.rank : RiskLevel → ℕ
  | .low => 0
  | .medium => 1
  | .high => 2

/-- The risk-factor count of `CalculateRiskLevel`.  Note that the chain rating
is read with Go map-default semantics: a chain absent from
`chainSecurityRatings` is read as 0 here (unlike the multiplier path). -/
noncomputable def riskFactors (p : Pool) : ℕ :=
  (if 100 < p.apy then 1 else 0) +
  (if 500 < p.apy then 1 else 0) +
  (if p.tvl < 100000 then 1 else 0) +
  (if p.tvl < 10000 then 1 else 0) +
  (if p.score < 30 then 1 else 0) +
  (if ((chainSecurityRatings.lookup p.chain).getD 0) < 60 then 1 else 0)

/-- `CalculateRiskLevel(pool)` from the analytics package. -/
noncomputable def calculateRiskLevel (p : Pool) : RiskLevel :=
  if 3 ≤ riskFactors p then .high
  else if 1 ≤ riskFactors p then .medium
  else .low

/-- `normalizeAPY(apy)` from the analytics package: 0 for non-positive apy,
otherwise log10(apy+1)/log10(10001) capped at 1. -/
noncomputable def normalizeAPY (apy : ℝ) : ℝ :=
  if apy ≤ 0 then 0
  else min 1 (Real.logb 10 (apy + 1) / Real.logb 10 10001)

/-- `normalizeTVL(tvl)` from the analytics package: 0 for non-positive tvl,
otherwise (log10(tvl) - 3) / (10 - 3) clamped to [0,1]. -/
noncomputable def normalizeTVL (tvl : ℝ) : ℝ :=
  if tvl ≤ 0 then 0
  else max 0 (min 1 ((Real.logb 10 tvl - 3) / (10 - 3)))

/-- `calculateStability(currentAPY, meanAPY)` from the analytics package. -/
noncomputable def calculateStability (currentAPY meanAPY : ℝ) : ℝ :=
  if meanAPY ≤ 0 then 1/2
  else 1 - min 1 (|currentAPY - meanAPY| / meanAPY)

/-- `normalizeTrend(change24h)` from the analytics package. -/
noncomputable def normalizeTrend (change24h : ℝ) : ℝ :=
  (max (-100) (min 100 change24h) + 100) / 200

/-- `getChainSecurityMultiplier(chain)`: here a missing chain defaults to a
rating of 50 (unlike the risk-factor path). -/
def getChainSecurityMultiplier (chain : String) : ℚ :=
  1/2 + ((chainSecurityRatings.lookup chain).getD 50) / 200

/-- The weighted component sum computed by `CalculateScore` before the chain
multiplier is applied. -/
noncomputable def weightedSum (w : ScoringConfig) (p : Pool) : ℝ :=
  w.apyWeight * normalizeAPY p.apy +
  w.tvlWeight * normalizeTVL p.tvl +
  w.stabilityWeight * calculateStability p.apy p.apyMean30d +
  w.trendWeight * normalizeTrend p.apyChange24h

/-- `CalculateScore(pool)` from the analytics package: weighted sum, then the
chain multiplier, then the factor 100, then a final clamp to [0,100]. -/
noncomputable def calculateScore (w : ScoringConfig) (p : Pool) : ℝ :=
  max 0 (min 100 (weightedSum w p * (getChainSecurityMultiplier p.chain : ℝ) * 100))

/-- Modelled from the spec: the formula of section 4.1,
score = clamp01(Σ weight_i · normalized_i) · chainMultiplier · 100, clamped to
[0,100]; this is the comparison definition for the refinement claim about the
clamping order, not a translation of the source. -/
noncomputable def specScoreFormula (w : ScoringConfig) (p : Pool) : ℝ :=
  max 0 (min 100
    (max 0 (min 1 (weightedSum w p)) * (getChainSecurityMultiplier p.chain : ℝ) * 100))

/-! ## Asset normalization (package opportunity)

The Go standard-library string functions used by `normalizeAsset`
(`strings.ToUpper`, `strings.Split`, `strings.HasPrefix`, `strings.HasSuffix`,
`strings.TrimSpace`) are embedded here as structurally recursive functions on
the underlying character lists; the three separators of the source are single
characters, so `strings.Split` is embedded as a split on one character. -/

/-- `strings.ToUpper` (ASCII content only in this code path). -/
def goToUpper (s : String) : String := String.mk (s.data.map Char.toUpper)

/-- `strings.Split` on a one-character separator: the list of maximal runs
between occurrences of the separator, keeping empty runs. -/
def splitOnChar (sep : Char) : List Char → List (List Char)
  | [] => [[]]
  | c :: rest =>
    let r := splitOnChar sep rest
    if c = sep then [] :: r
    else
      match r with
      | [] => [[c]]
      | h :: t => (c :: h) :: t

/-- `strings.HasPrefix`. -/
def goStartsWith (s pre : String) : Bool := pre.data.isPrefixOf s.data

/-- `strings.HasSuffix`. -/
def goEndsWith (s suf : String) : Bool := suf.data.isSuffixOf s.data

/-- `strings.TrimSpace`: drop whitespace from both ends. -/
def goTrim (l : List Char) : List Char :=
  ((l.dropWhile Char.isWhitespace).reverse.dropWhile Char.isWhitespace).reverse

/-- The known single-asset list from `normalizeAsset`. -/
def singleAssets : List String :=
  ["USDC", "USDT", "DAI", "FRAX", "LUSD", "BUSD", "ETH", "WETH", "BTC",
   "WBTC", "MATIC", "AVAX", "FTM", "BNB"]

/-- The per-asset test of the loop in `normalizeAsset`: exact match, or the
symbol starts with the asset followed by a hyphen, or ends with a hyphen
followed by the asset. -/
def assetMatches (u a : String) : Bool :=
  u == a || goStartsWith u (a ++ "-") || goEndsWith u ("-" ++ a)

/-- The separators tried, in order, by `normalizeAsset`. -/
def separators : List Char := ['-', '/', '_']

/-- `normalizeAsset(symbol)` from the opportunity service: upper-case, match
the single-asset list, else split on the first separator that yields at least
two parts and return the trimmed first part, else the symbol itself. -/
def normalizeAsset (symbol : String) : String :=
  let u := goToUpper symbol
  match singleAssets.find? (fun a => assetMatches u a) with
  | some a => a
  | none =>
    match separators.find? (fun sep => 2 ≤ (splitOnChar sep u.data).length) with
    | some sep => String.mk (goTrim ((splitOnChar sep u.data).headD u.data))
    | none => u

/-! ## Opportunity store (elasticsearch repository) -/

/-- The opportunity columns relevant to the upsert and expiry sweep
(`models.Opportunity`); timestamps are modelled as integers. -/
structure OpportunityRow where
  id : String
  title : String
  currentApy : ℚ
  potentialProfit : ℚ
  tvl : ℚ
  score : ℚ
  isActive : Bool
  detectedAt : ℤ
  lastSeenAt : ℤ
  expiresAt : ℤ
  updatedAt : ℤ
deriving DecidableEq

/-- The ON CONFLICT (id) DO UPDATE clause of `UpsertOpportunity`: the incoming
row overwrites the mutable columns, including `is_active`; `detected_at` and
`expires_at` are kept from the existing row; `updated_at` is set to now. -/
def applyConflictUpdate (now : ℤ) (o existing : OpportunityRow) : OpportunityRow :=
  { existing with
    title := o.title
    currentApy := o.currentApy
    potentialProfit := o.potentialProfit
    tvl := o.tvl
    score := o.score
    isActive := o.isActive
    lastSeenAt := o.lastSeenAt
    updatedAt := now }

/-- `UpsertOpportunity`: insert the row, or on an id conflict apply the
UPDATE clause to the existing row. -/
def upsertOpportunity (now : ℤ) (o : OpportunityRow) (store : List OpportunityRow) :
    List OpportunityRow :=
  if store.any (fun r => r.id == o.id) then
    store.map (fun r => if r.id == o.id then applyConflictUpdate now o r else r)
  else
    store ++ [o]

/-- The per-row effect of `DeactivateExpiredOpportunities`: rows that are
active and past expiry become inactive with `updated_at` set to now; all other
rows are untouched. -/
def markExpired (now : ℤ) (r : OpportunityRow) : OpportunityRow :=
  if r.isActive ∧ r.expiresAt < now then
    { r with isActive := false, updatedAt := now }
  else r

/-- `DeactivateExpiredOpportunities`: one UPDATE over the whole table. -/
def deactivateExpiredOpportunities (now : ℤ) (store : List OpportunityRow) :
    List OpportunityRow :=
  store.map (markExpired now)

/-! ## Fan-out hub (hub.go) -/

/-- The hub registry state: the full client set, the two topic subsets, each
client's bounded send queue, its closed flag, and the queue capacity (256 in
`NewClient`).  Clients are identified by naturals and messages by naturals. -/
structure HubState where
  clients : List ℕ
  poolClients : List ℕ
  oppClients : List ℕ
  queue : ℕ → List ℕ
  closed : ℕ → Bool
  cap : ℕ

/-- A non-blocking send on the client's queue succeeds exactly when the queue
has spare capacity. -/
def hasSpace (s : HubState) (c : ℕ) : Bool :=
  (s.queue c).length < s.cap

/-- The delivery pass of a broadcast: each member of the topic set whose queue
has space gets the message appended once; every other queue is untouched. -/
def deliver (s : HubState) (topic : List ℕ) (m : ℕ) : ℕ → List ℕ :=
  fun c => if c ∈ topic ∧ hasSpace s c then s.queue c ++ [m] else s.queue c

/-- `BroadcastPoolUpdate`: deliver to the pool-topic subset, then remove the
saturated clients from the pool-topic subset only. -/
def broadcastPoolUpdate (m : ℕ) (s : HubState) : HubState :=
  { s with
    queue := deliver s s.poolClients m
    poolClients := s.poolClients.filter (fun c => hasSpace s c) }

/-- `BroadcastOpportunityAlert`: deliver to the opportunity-topic subset, then
remove the saturated clients from the opportunity-topic subset only. -/
def broadcastOpportunityAlert (m : ℕ) (s : HubState) : HubState :=
  { s with
    queue := deliver s s.oppClients m
    oppClients := s.oppClients.filter (fun c => hasSpace s c) }

/-- The broadcast-channel case of `Hub.Run`: deliver to every registered
client, then fully evict the saturated ones (removed from all three sets,
queue closed). -/
def runBroadcast (m : ℕ) (s : HubState) : HubState :=
  let dead := s.clients.filter (fun c => ! hasSpace s c)
  { clients := s.clients.filter (fun c => decide (c ∉ dead))
    poolClients := s.poolClients.filter (fun c => decide (c ∉ dead))
    oppClients := s.oppClients.filter (fun c => decide (c ∉ dead))
    queue := deliver s s.clients m
    closed := fun c => if c ∈ dead then true else s.closed c
    cap := s.cap }

/-! ## Shared evaluation lemmas -/

lemma estimateGasCost_polygon : estimateGasCost "polygon" = 1/10 := by
  simp [estimateGasCost, gasCosts, List.lookup]

lemma estimateGasCost_arbitrum : estimateGasCost "arbitrum" = 1 := by
  simp [estimateGasCost, gasCosts, List.lookup]

/-! ## C4: yield-gap profit -/

/-- C4: CalculateYieldGapProfit returns (0,0) when the gap is non-positive;
otherwise, with gasCost the sum of the two per-chain estimates (10 for an
unknown chain), it returns minDays = ceil(gasCost·365/(apyDiff·10000)) and
profit = 10000·apyDiff/100/365·30 − gasCost, except that it returns (0,0)
whenever profit < 0 or gasCost·365/(apyDiff·7) exceeds 100000. -/
theorem c4_yield_gap_profit (lowAPY highAPY tvl : ℚ) (sourceChain targetChain : String) :
    (highAPY - lowAPY ≤ 0 →
      calculateYieldGapProfit lowAPY highAPY tvl sourceChain targetChain = (0, 0)) ∧
    (0 < highAPY - lowAPY →
      (0 ≤ 10000 * (highAPY - lowAPY) / 100 / 365 * 30 -
            (estimateGasCost sourceChain + estimateGasCost targetChain) →
        (estimateGasCost sourceChain + estimateGasCost targetChain) * 365 /
            ((highAPY - lowAPY) * 7) ≤ 100000 →
        calculateYieldGapProfit lowAPY highAPY tvl sourceChain targetChain =
          (10000 * (highAPY - lowAPY) / 100 / 365 * 30 -
              (estimateGasCost sourceChain + estimateGasCost targetChain),
            ⌈(estimateGasCost sourceChain + estimateGasCost targetChain) * 365 /
              ((highAPY - lowAPY) * 10000)⌉)) ∧
      ((10000 * (highAPY - lowAPY) / 100 / 365 * 30 -
            (estimateGasCost sourceChain + estimateGasCost targetChain) < 0 ∨
          100000 < (estimateGasCost sourceChain + estimateGasCost targetChain) * 365 /
            ((highAPY - lowAPY) * 7)) →
        calculateYieldGapProfit lowAPY highAPY tvl sourceChain targetChain = (0, 0))) ∧
    (gasCosts.lookup sourceChain = none → estimateGasCost sourceChain = 10) := by
  refine ⟨fun h => ?_, fun hpos => ⟨fun hp hinv => ?_, fun hrej => ?_⟩, fun h => ?_⟩
  · simp only [calculateYieldGapProfit]
    rw [if_pos h]
  · simp only [calculateYieldGapProfit]
    rw [if_neg (not_le.mpr hpos), if_neg ?_]
    rw [not_or]
    exact ⟨not_lt.mpr hp, not_lt.mpr hinv⟩
  · simp only [calculateYieldGapProfit]
    rw [if_neg (not_le.mpr hpos), if_pos hrej]
  · simp [estimateGasCost, h]

/-- Witness for C4 at a positive accepted gap, a non-positive gap, and an
unknown chain. -/
theorem c4_yield_gap_profit_witness :
    calculateYieldGapProfit 1 5 0 "polygon" "arbitrum" =
      (10000 * ((5:ℚ) - 1) / 100 / 365 * 30 -
          (estimateGasCost "polygon" + estimateGasCost "arbitrum"),
        ⌈(estimateGasCost "polygon" + estimateGasCost "arbitrum") * 365 /
          (((5:ℚ) - 1) * 10000)⌉) ∧
    calculateYieldGapProfit 5 5 0 "polygon" "arbitrum" = (0, 0) ∧
    estimateGasCost "unknownchain" = 10 :=
  ⟨((c4_yield_gap_profit 1 5 0 "polygon" "arbitrum").2.1 (by norm_num)).1
      (by norm_num [estimateGasCost_polygon, estimateGasCost_arbitrum])
      (by norm_num [estimateGasCost_polygon, estimateGasCost_arbitrum]),
    (c4_yield_gap_profit 5 5 0 "polygon" "arbitrum").1 (by norm_num),
    (c4_yield_gap_profit 5 5 0 "unknownchain" "arbitrum").2.2 (by decide)⟩

/-! ## C7 and C10: risk level -/

lemma ite_one_zero_le {P Q : Prop} [Decidable P] [Decidable Q] (h : P → Q) :
    (if P then 1 else 0 : ℕ) ≤ if Q then 1 else 0 := by
  split_ifs with h1 h2
  · exact le_rfl
  · exact absurd (h h1) h2
  · exact Nat.zero_le 1
  · exact le_rfl

lemma riskFactors_apy_mono (p : Pool) {a₁ a₂ : ℝ} (h : a₁ ≤ a₂) :
    riskFactors { p with apy := a₁ } ≤ riskFactors { p with apy := a₂ } := by
  unfold riskFactors
  simp only
  have h1 : (if 100 < a₁ then 1 else 0 : ℕ) ≤ if 100 < a₂ then 1 else 0 :=
    ite_one_zero_le (fun hx => lt_of_lt_of_le hx h)
  have h2 : (if 500 < a₁ then 1 else 0 : ℕ) ≤ if 500 < a₂ then 1 else 0 :=
    ite_one_zero_le (fun hx => lt_of_lt_of_le hx h)
  omega

lemma riskFactors_tvl_anti (p : Pool) {t₁ t₂ : ℝ} (h : t₂ ≤ t₁) :
    riskFactors { p with tvl := t₁ } ≤ riskFactors { p with tvl := t₂ } := by
  unfold riskFactors
  simp only
  have h1 : (if t₁ < 100000 then 1 else 0 : ℕ) ≤ if t₂ < 100000 then 1 else 0 :=
    ite_one_zero_le (fun hx => lt_of_le_of_lt h hx)
  have h2 : (if t₁ < 10000 then 1 else 0 : ℕ) ≤ if t₂ < 10000 then 1 else 0 :=
    ite_one_zero_le (fun hx => lt_of_le_of_lt h hx)
  omega

lemma rank_riskLevel_mono {p q : Pool} (h : riskFactors p ≤ riskFactors q) :
    (calculateRiskLevel p).rank ≤ (calculateRiskLevel q).rank := by
  unfold calculateRiskLevel
  split_ifs <;> simp_all [RiskLevel.rank] <;> omega

/-- C7: CalculateRiskLevel is monotone in risk: raising apy across the 500
threshold, or lowering tvl below 10000, with all other fields fixed, never
moves the result to a strictly lower tier in the order low < medium < high. -/
theorem c7_risk_level_monotone (p : Pool) (a₁ a₂ t₁ t₂ : ℝ) :
    (a₁ ≤ 500 → 500 < a₂ →
      ¬ ((calculateRiskLevel { p with apy := a₂ }).rank <
          (calculateRiskLevel { p with apy := a₁ }).rank)) ∧
    (t₂ < 10000 → t₂ ≤ t₁ →
      ¬ ((calculateRiskLevel { p with tvl := t₂ }).rank <
          (calculateRiskLevel { p with tvl := t₁ }).rank)) := by
  constructor
  · intro h1 h2
    exact not_lt.mpr (rank_riskLevel_mono (riskFactors_apy_mono p (by linarith)))
  · intro h1 h2
    exact not_lt.mpr (rank_riskLevel_mono (riskFactors_tvl_anti p h2))

/-- Witness for C7 at a concrete pool, apy raised from 400 to 600 and tvl
lowered from 50000 to 5000. -/
theorem c7_risk_level_monotone_witness :
    ¬ ((calculateRiskLevel (⟨"ethereum", 600, 50000, 80, 5, 0⟩ : Pool)).rank <
        (calculateRiskLevel (⟨"ethereum", 400, 50000, 80, 5, 0⟩ : Pool)).rank) ∧
    ¬ ((calculateRiskLevel (⟨"ethereum", 400, 5000, 80, 5, 0⟩ : Pool)).rank <
        (calculateRiskLevel (⟨"ethereum", 400, 50000, 80, 5, 0⟩ : Pool)).rank) :=
  ⟨(c7_risk_level_monotone ⟨"ethereum", 400, 50000, 80, 5, 0⟩ 400 600 50000 5000).1
      (by norm_num) (by norm_num),
    (c7_risk_level_monotone ⟨"ethereum", 400, 50000, 80, 5, 0⟩ 400 600 50000 5000).2
      (by norm_num) (by norm_num)⟩

/-- C10: a pool on a chain absent from the chain-security-ratings table is
never rated low risk: the missing rating reads as 0, below the 60 threshold,
so at least one risk factor is always present. -/
theorem c10_unknown_chain_not_low (p : Pool)
    (h : chainSecurityRatings.lookup p.chain = none) :
    calculateRiskLevel p ≠ RiskLevel.low := by
  have h1 : 1 ≤ riskFactors p := by
    unfold riskFactors
    rw [h]
    norm_num
  unfold calculateRiskLevel
  split_ifs with h2 h3 <;> simp_all

/-- Witness for C10 at a pool on the unknown chain "notachain" whose other
metrics are all benign. -/
theorem c10_unknown_chain_not_low_witness :
    calculateRiskLevel (⟨"notachain", 5, 1000000, 80, 5, 0⟩ : Pool) ≠ RiskLevel.low :=
  c10_unknown_chain_not_low ⟨"notachain", 5, 1000000, 80, 5, 0⟩ (by decide)

/-! ## C5: asset normalization for yield-gap grouping -/

lemma find?_singleAssets_self {u : String} (hu : u ∈ singleAssets) :
    singleAssets.find? (fun a => assetMatches u a) = some u := by
  fin_cases hu <;> decide

/-- C5 counterexample: "CAKE-ETH" upper-cases to itself, is not an exact
member of the single-asset list and contains the separator hyphen, so the
claim says its group key is the first token "CAKE"; the code instead matches
the known asset "ETH" by the hyphen-suffix rule and returns "ETH". -/
theorem c5_counterexample :
    goToUpper "CAKE-ETH" = "CAKE-ETH" ∧
    "CAKE-ETH" ∉ singleAssets ∧
    2 ≤ (splitOnChar '-' "CAKE-ETH".data).length ∧
    (splitOnChar '-' "CAKE-ETH".data).headD [] = "CAKE".data ∧
    normalizeAsset "CAKE-ETH" ≠ "CAKE" ∧
    normalizeAsset "CAKE-ETH" = "ETH" := by
  decide

/-- C5 amended: an upper-cased symbol that is an exact member of the known
single-asset list keys to that asset; a symbol matching no known asset by the
exact, hyphen-prefix or hyphen-suffix rule keys to the trimmed first token of
the split on the first separator (hyphen, slash, underscore, in that order)
producing at least two parts, and to itself when no separator splits it. -/
theorem c5_normalize_asset (sym : String) :
    (goToUpper sym ∈ singleAssets → normalizeAsset sym = goToUpper sym) ∧
    ((∀ a ∈ singleAssets, assetMatches (goToUpper sym) a = false) →
      (2 ≤ (splitOnChar '-' (goToUpper sym).data).length →
        normalizeAsset sym =
          String.mk (goTrim ((splitOnChar '-' (goToUpper sym).data).headD
            (goToUpper sym).data))) ∧
      (¬ 2 ≤ (splitOnChar '-' (goToUpper sym).data).length →
        2 ≤ (splitOnChar '/' (goToUpper sym).data).length →
        normalizeAsset sym =
          String.mk (goTrim ((splitOnChar '/' (goToUpper sym).data).headD
            (goToUpper sym).data))) ∧
      (¬ 2 ≤ (splitOnChar '-' (goToUpper sym).data).length →
        ¬ 2 ≤ (splitOnChar '/' (goToUpper sym).data).length →
        2 ≤ (splitOnChar '_' (goToUpper sym).data).length →
        normalizeAsset sym =
          String.mk (goTrim ((splitOnChar '_' (goToUpper sym).data).headD
            (goToUpper sym).data))) ∧
      (¬ 2 ≤ (splitOnChar '-' (goToUpper sym).data).length →
        ¬ 2 ≤ (splitOnChar '/' (goToUpper sym).data).length →
        ¬ 2 ≤ (splitOnChar '_' (goToUpper sym).data).length →
        normalizeAsset sym = goToUpper sym)) := by
  constructor
  · intro hu
    simp only [normalizeAsset, find?_singleAssets_self hu]
  · intro hno
    have hfind : singleAssets.find? (fun a => assetMatches (goToUpper sym) a) = none := by
      rw [List.find?_eq_none]
      intro a ha
      simp [hno a ha]
    refine ⟨fun h1 => ?_, fun h1 h2 => ?_, fun h1 h2 h3 => ?_, fun h1 h2 h3 => ?_⟩
    · simp only [normalizeAsset, hfind]
      simp [separators, List.find?, h1]
    · simp only [normalizeAsset, hfind]
      simp [separators, List.find?, h1, h2]
    · simp only [normalizeAsset, hfind]
      simp [separators, List.find?, h1, h2, h3]
    · simp only [normalizeAsset, hfind]
      simp [separators, List.find?, h1, h2, h3]

/-- Witness for C5 amended: an exact single-asset symbol and a plain
hyphen-separated pair symbol. -/
theorem c5_normalize_asset_witness :
    normalizeAsset "usdc" = goToUpper "usdc" ∧
    normalizeAsset "FOO-BAR" =
      String.mk (goTrim ((splitOnChar '-' (goToUpper "FOO-BAR").data).headD
        (goToUpper "FOO-BAR").data)) :=
  ⟨(c5_normalize_asset "usdc").1 (by decide),
    ((c5_normalize_asset "FOO-BAR").2 (by decide)).1 (by decide)⟩

/-! ## C8: expiry sweep -/

lemma markExpired_idem (now : ℤ) (r : OpportunityRow) :
    markExpired now (markExpired now r) = markExpired now r := by
  unfold markExpired
  split_ifs with h1 h2 <;> simp_all

/-- C8: the expiry sweep acts pointwise on the store; a row that was active
and past expiry becomes inactive (its other key fields untouched), every
other row is unchanged, and a second sweep at the same time is the
identity. -/
theorem c8_expiry_sweep (now : ℤ) (store : List OpportunityRow)
    (i : ℕ) (r : OpportunityRow) :
    ((deactivateExpiredOpportunities now store)[i]? =
      (store[i]?).map (markExpired now)) ∧
    (r.isActive = true → r.expiresAt < now →
      (markExpired now r).isActive = false ∧
      (markExpired now r).id = r.id ∧
      (markExpired now r).expiresAt = r.expiresAt) ∧
    (¬ (r.isActive = true ∧ r.expiresAt < now) → markExpired now r = r) ∧
    deactivateExpiredOpportunities now (deactivateExpiredOpportunities now store) =
      deactivateExpiredOpportunities now store := by
  refine ⟨?_, fun h1 h2 => ?_, fun h => ?_, ?_⟩
  · simp [deactivateExpiredOpportunities]
  · unfold markExpired
    rw [if_pos ⟨h1, h2⟩]
    exact ⟨rfl, rfl, rfl⟩
  · unfold markExpired
    rw [if_neg h]
  · simp [deactivateExpiredOpportunities, List.map_map, Function.comp_def,
      markExpired_idem]

/-- Witness for C8 on a one-row store whose row is active and expired. -/
theorem c8_expiry_sweep_witness :
    (markExpired 10 (⟨"a", "t", 1, 2, 3, 4, true, 0, 0, 5, 0⟩ : OpportunityRow)).isActive
        = false ∧
    deactivateExpiredOpportunities 10
        (deactivateExpiredOpportunities 10
          [(⟨"a", "t", 1, 2, 3, 4, true, 0, 0, 5, 0⟩ : OpportunityRow)]) =
      deactivateExpiredOpportunities 10
        [(⟨"a", "t", 1, 2, 3, 4, true, 0, 0, 5, 0⟩ : OpportunityRow)] ∧
    markExpired 10 (⟨"b", "t", 1, 2, 3, 4, false, 0, 0, 5, 0⟩ : OpportunityRow) =
      (⟨"b", "t", 1, 2, 3, 4, false, 0, 0, 5, 0⟩ : OpportunityRow) :=
  ⟨((c8_expiry_sweep 10 [⟨"a", "t", 1, 2, 3, 4, true, 0, 0, 5, 0⟩] 0
      ⟨"a", "t", 1, 2, 3, 4, true, 0, 0, 5, 0⟩).2.1 rfl (by norm_num)).1,
    (c8_expiry_sweep 10 [⟨"a", "t", 1, 2, 3, 4, true, 0, 0, 5, 0⟩] 0
      ⟨"a", "t", 1, 2, 3, 4, true, 0, 0, 5, 0⟩).2.2.2,
    (c8_expiry_sweep 10 [] 0 ⟨"b", "t", 1, 2, 3, 4, false, 0, 0, 5, 0⟩).2.2.1
      (by simp)⟩

/-! ## C2: deactivated opportunities and the upsert -/

/-- C2 counterexample: a deactivated stored row is reactivated by an
UpsertOpportunity carrying the same id and isActive = true, because the
ON CONFLICT clause overwrites is_active with the incoming value. -/
theorem c2_counterexample :
    (⟨"a", "t", 0, 0, 0, 0, false, 0, 0, 5, 0⟩ : OpportunityRow).isActive = false ∧
    upsertOpportunity 7 (⟨"a", "t2", 0, 0, 0, 0, true, 6, 6, 9, 6⟩ : OpportunityRow)
        [⟨"a", "t", 0, 0, 0, 0, false, 0, 0, 5, 0⟩] =
      [(⟨"a", "t2", 0, 0, 0, 0, true, 0, 6, 5, 7⟩ : OpportunityRow)] ∧
    ((⟨"a", "t2", 0, 0, 0, 0, true, 0, 6, 5, 7⟩ : OpportunityRow)).isActive = true := by
  refine ⟨rfl, ?_, rfl⟩
  simp [upsertOpportunity, applyConflictUpdate]

/-- C2 amended: over a store with pairwise-distinct ids, a deactivated row
stays inactive under the expiry sweep and under any UpsertOpportunity whose
id differs from its own; an UpsertOpportunity always forces the stored row
with the upserted id to the incoming isActive value, so an upsert carrying
isActive = true over a matching deactivated row reactivates it (the detection
scans generate fresh random ids, so a matching id requires an id
collision). -/
theorem c2_inactive_stays (now : ℤ) (o r : OpportunityRow)
    (store : List OpportunityRow)
    (hpw : store.Pairwise (fun x y => x.id ≠ y.id))
    (hr : r ∈ store) (hin : r.isActive = false) :
    (o.id ≠ r.id →
      ∀ r' ∈ upsertOpportunity now o store, r'.id = r.id → r'.isActive = false) ∧
    (∀ r' ∈ deactivateExpiredOpportunities now store,
      r'.id = r.id → r'.isActive = false) ∧
    (∀ r' ∈ upsertOpportunity now o store, r'.id = o.id →
      r'.isActive = o.isActive) := by
  have hid : ∀ x ∈ store, x.id = r.id → x = r := by
    intro x hx hxid
    by_contra hne
    exact (hpw.forall (fun a b h => (h ∘ Eq.symm) : Symmetric fun x y => x.id ≠ y.id)
      hx hr hne) hxid
  refine ⟨fun hne r' hr' hid' => ?_, fun r' hr' hid' => ?_, fun r' hr' hid' => ?_⟩
  · unfold upsertOpportunity at hr'
    split_ifs at hr' with hc
    · rcases List.mem_map.mp hr' with ⟨x, hx, hx'⟩
      by_cases hxo : (x.id == o.id) = true
      · rw [if_pos hxo] at hx'
        have : r'.id = x.id := by
          rw [← hx']; rfl
        rw [this, eq_of_beq hxo] at hid'
        exact absurd hid' hne
      · rw [if_neg hxo] at hx'
        subst hx'
        rw [hid x hx hid']
        exact hin
    · rcases List.mem_append.mp hr' with hx | hx
      · rw [hid r' hx hid']
        exact hin
      · rw [List.mem_singleton.mp hx] at hid'
        exact absurd hid' hne
  · rcases List.mem_map.mp hr' with ⟨x, hx, hx'⟩
    have hxid : x.id = r.id := by
      rw [← hid']
      rw [← hx']
      unfold markExpired
      split_ifs <;> rfl
    rw [hid x hx hxid] at hx'
    subst hx'
    unfold markExpired
    split_ifs with h
    · rfl
    · exact hin
  · unfold upsertOpportunity at hr'
    split_ifs at hr' with hc
    · rcases List.mem_map.mp hr' with ⟨x, hx, hx'⟩
      by_cases hxo : (x.id == o.id) = true
      · rw [if_pos hxo] at hx'
        subst hx'
        rfl
      · rw [if_neg hxo] at hx'
        subst hx'
        exact absurd (beq_iff_eq.mpr hid') hxo
    · rcases List.mem_append.mp hr' with hx | hx
      · have hbeq : (r'.id == o.id) = true := beq_iff_eq.mpr hid'
        exact absurd (List.any_eq_true.mpr ⟨r', hx, hbeq⟩) hc
      · rw [List.mem_singleton.mp hx]

/-- Witness for C2 amended on a two-row store with distinct ids, one row
deactivated. -/
theorem c2_inactive_stays_witness :
    (∀ r' ∈ upsertOpportunity 7 (⟨"c", "t", 0, 0, 0, 0, true, 6, 6, 9, 6⟩ : OpportunityRow)
        [⟨"a", "t", 0, 0, 0, 0, false, 0, 0, 5, 0⟩, ⟨"b", "t", 0, 0, 0, 0, true, 0, 0, 9, 0⟩],
      r'.id = "a" → r'.isActive = false) ∧
    (∀ r' ∈ deactivateExpiredOpportunities 7
        [⟨"a", "t", 0, 0, 0, 0, false, 0, 0, 5, 0⟩, ⟨"b", "t", 0, 0, 0, 0, true, 0, 0, 9, 0⟩],
      r'.id = "a" → r'.isActive = false) :=
  ⟨(c2_inactive_stays 7 ⟨"c", "t", 0, 0, 0, 0, true, 6, 6, 9, 6⟩
      ⟨"a", "t", 0, 0, 0, 0, false, 0, 0, 5, 0⟩
      [⟨"a", "t", 0, 0, 0, 0, false, 0, 0, 5, 0⟩, ⟨"b", "t", 0, 0, 0, 0, true, 0, 0, 9, 0⟩]
      (by simp) (by simp) rfl).1 (by simp),
    (c2_inactive_stays 7 ⟨"c", "t", 0, 0, 0, 0, true, 6, 6, 9, 6⟩
      ⟨"a", "t", 0, 0, 0, 0, false, 0, 0, 5, 0⟩
      [⟨"a", "t", 0, 0, 0, 0, false, 0, 0, 5, 0⟩, ⟨"b", "t", 0, 0, 0, 0, true, 0, 0, 9, 0⟩]
      (by simp) (by simp) rfl).2.1⟩

/-! ## C1: fan-out broadcasts and saturated connections -/

/-- C1 counterexample: a hub with clients 1 and 2, both subscribed to pool
updates, client 1 also subscribed to opportunity alerts, capacity 2, and
client 1's queue pre-filled to capacity.  After BroadcastPoolUpdate the
message is delivered exactly to client 2, but — contrary to the claim —
the saturated client 1 is still in the full client set, still in the
opportunity subset, and its queue is not closed. -/
theorem c1_counterexample :
    hasSpace ⟨[1, 2], [1, 2], [1], fun c => if c = 1 then [9, 9] else [],
        fun _ => false, 2⟩ 1 = false ∧
    hasSpace ⟨[1, 2], [1, 2], [1], fun c => if c = 1 then [9, 9] else [],
        fun _ => false, 2⟩ 2 = true ∧
    (broadcastPoolUpdate 5 ⟨[1, 2], [1, 2], [1], fun c => if c = 1 then [9, 9] else [],
        fun _ => false, 2⟩).queue 2 = [5] ∧
    (broadcastPoolUpdate 5 ⟨[1, 2], [1, 2], [1], fun c => if c = 1 then [9, 9] else [],
        fun _ => false, 2⟩).queue 1 = [9, 9] ∧
    1 ∉ (broadcastPoolUpdate 5 ⟨[1, 2], [1, 2], [1], fun c => if c = 1 then [9, 9] else [],
        fun _ => false, 2⟩).poolClients ∧
    1 ∈ (broadcastPoolUpdate 5 ⟨[1, 2], [1, 2], [1], fun c => if c = 1 then [9, 9] else [],
        fun _ => false, 2⟩).clients ∧
    1 ∈ (broadcastPoolUpdate 5 ⟨[1, 2], [1, 2], [1], fun c => if c = 1 then [9, 9] else [],
        fun _ => false, 2⟩).oppClients ∧
    (broadcastPoolUpdate 5 ⟨[1, 2], [1, 2], [1], fun c => if c = 1 then [9, 9] else [],
        fun _ => false, 2⟩).closed 1 = false := by
  refine ⟨rfl, rfl, ?_, ?_, ?_, ?_, ?_, rfl⟩ <;>
    simp [broadcastPoolUpdate, deliver, hasSpace]

/-- C1 amended: a topic broadcast delivers exactly one copy to every
subscribed connection with queue space and leaves every other queue
untouched; a saturated subscriber is removed from that topic subset only — it
stays in the full client set and in the other topic subset and its queue is
not closed.  Full eviction (removal from all sets with queue close)
happens only in the broadcast-channel case of Hub.Run. -/
theorem c1_topic_broadcast_saturation (s : HubState) (m c : ℕ) :
    (c ∈ s.poolClients → hasSpace s c = true →
      (broadcastPoolUpdate m s).queue c = s.queue c ++ [m]) ∧
    (hasSpace s c = false →
      (broadcastPoolUpdate m s).queue c = s.queue c ∧
      c ∉ (broadcastPoolUpdate m s).poolClients) ∧
    (c ∉ s.poolClients → (broadcastPoolUpdate m s).queue c = s.queue c) ∧
    (broadcastPoolUpdate m s).clients = s.clients ∧
    (broadcastPoolUpdate m s).oppClients = s.oppClients ∧
    (broadcastPoolUpdate m s).closed = s.closed ∧
    (c ∈ (broadcastPoolUpdate m s).poolClients ↔
      c ∈ s.poolClients ∧ hasSpace s c = true) ∧
    (c ∈ s.oppClients → hasSpace s c = true →
      (broadcastOpportunityAlert m s).queue c = s.queue c ++ [m]) ∧
    (hasSpace s c = false →
      (broadcastOpportunityAlert m s).queue c = s.queue c ∧
      c ∉ (broadcastOpportunityAlert m s).oppClients) ∧
    (broadcastOpportunityAlert m s).clients = s.clients ∧
    (broadcastOpportunityAlert m s).poolClients = s.poolClients ∧
    (broadcastOpportunityAlert m s).closed = s.closed ∧
    (c ∈ s.clients → hasSpace s c = false →
      c ∉ (runBroadcast m s).clients ∧
      c ∉ (runBroadcast m s).poolClients ∧
      c ∉ (runBroadcast m s).oppClients ∧
      (runBroadcast m s).closed c = true) := by
  refine ⟨fun h1 h2 => ?_, fun h2 => ⟨?_, ?_⟩, fun h1 => ?_, rfl, rfl, rfl, ?_,
    fun h1 h2 => ?_, fun h2 => ⟨?_, ?_⟩, rfl, rfl, rfl, fun h1 h2 => ?_⟩
  · simp [broadcastPoolUpdate, deliver, h1, h2]
  · simp [broadcastPoolUpdate, deliver, h2]
  · simp [broadcastPoolUpdate, List.mem_filter, h2]
  · simp [broadcastPoolUpdate, deliver, h1]
  · simp [broadcastPoolUpdate, List.mem_filter]
  · simp [broadcastOpportunityAlert, deliver, h1, h2]
  · simp [broadcastOpportunityAlert, deliver, h2]
  · simp [broadcastOpportunityAlert, List.mem_filter, h2]
  · have hdead : c ∈ s.clients.filter (fun x => ! hasSpace s x) :=
      List.mem_filter.mpr ⟨h1, by simp [h2]⟩
    refine ⟨?_, ?_, ?_, ?_⟩ <;>
      simp [runBroadcast, List.mem_filter, hdead] <;>
      first
      | exact fun _ => ⟨h1, h2⟩
      | exact Or.inl ⟨h1, h2⟩

/-- Witness for C1 amended on the concrete two-client hub with client 1
saturated: client 2 receives the message, client 1 keeps its queue and leaves
the pool subset, and the Run-loop broadcast fully evicts client 1. -/
theorem c1_topic_broadcast_saturation_witness :
    (broadcastPoolUpdate 5 ⟨[1, 2], [1, 2], [1], fun c => if c = 1 then [9, 9] else [],
        fun _ => false, 2⟩).queue 2 =
      (if (2 : ℕ) = 1 then [9, 9] else []) ++ [5] ∧
    1 ∉ (broadcastPoolUpdate 5 ⟨[1, 2], [1, 2], [1], fun c => if c = 1 then [9, 9] else [],
        fun _ => false, 2⟩).poolClients ∧
    1 ∉ (runBroadcast 5 ⟨[1, 2], [1, 2], [1], fun c => if c = 1 then [9, 9] else [],
        fun _ => false, 2⟩).clients ∧
    (runBroadcast 5 ⟨[1, 2], [1, 2], [1], fun c => if c = 1 then [9, 9] else [],
        fun _ => false, 2⟩).closed 1 = true :=
  ⟨(c1_topic_broadcast_saturation ⟨[1, 2], [1, 2], [1],
        fun c => if c = 1 then [9, 9] else [], fun _ => false, 2⟩ 5 2).1
      (by decide) (by decide),
    ((c1_topic_broadcast_saturation ⟨[1, 2], [1, 2], [1],
        fun c => if c = 1 then [9, 9] else [], fun _ => false, 2⟩ 5 1).2.1
      (by decide)).2,
    ((c1_topic_broadcast_saturation ⟨[1, 2], [1, 2], [1],
        fun c => if c = 1 then [9, 9] else [], fun _ => false, 2⟩ 5 1).2.2.2.2.2.2.2.2.2.2.2.2
      (by decide) (by decide)).1,
    ((c1_topic_broadcast_saturation ⟨[1, 2], [1, 2], [1],
        fun c => if c = 1 then [9, 9] else [], fun _ => false, 2⟩ 5 1).2.2.2.2.2.2.2.2.2.2.2.2
      (by decide) (by decide)).2.2.2⟩

/-! ## C6: monotonicity of normalizeAPY -/

lemma logb10001_pos : 0 < Real.logb 10 10001 :=
  Real.logb_pos (by norm_num) (by norm_num)

lemma normalizeAPY_of_ge_10000 {a : ℝ} (ha : 10000 ≤ a) : normalizeAPY a = 1 := by
  unfold normalizeAPY
  rw [if_neg (by linarith)]
  have h1 : Real.logb 10 10001 ≤ Real.logb 10 (a + 1) :=
    Real.logb_le_logb_of_le (by norm_num) (by norm_num) (by linarith)
  exact min_eq_left ((one_le_div logb10001_pos).mpr h1)

/-- C6 counterexample: normalizeAPY is not strictly increasing on every pair:
it is constantly 0 on non-positive inputs and constantly 1 from 10000
upward. -/
theorem c6_counterexample :
    ((-2 : ℝ) < -1) ∧ ¬ (normalizeAPY (-2) < normalizeAPY (-1)) ∧
    ((10000 : ℝ) < 20000) ∧ ¬ (normalizeAPY 10000 < normalizeAPY 20000) := by
  refine ⟨by norm_num, ?_, by norm_num, ?_⟩
  · unfold normalizeAPY
    rw [if_pos (by norm_num), if_pos (by norm_num)]
    exact lt_irrefl 0
  · rw [normalizeAPY_of_ge_10000 le_rfl, normalizeAPY_of_ge_10000 (by norm_num)]
    exact lt_irrefl 1

/-- C6 amended: normalizeAPY(0) = 0, normalizeAPY is monotone non-decreasing
everywhere, and it is strictly increasing on the interval [0, 10000] (beyond
which the cap at 1 makes it constant, and below 0 it is constantly 0). -/
theorem c6_normalizeAPY_monotone :
    normalizeAPY 0 = 0 ∧
    (∀ a b : ℝ, a ≤ b → normalizeAPY a ≤ normalizeAPY b) ∧
    (∀ a b : ℝ, 0 ≤ a → a < b → b ≤ 10000 → normalizeAPY a < normalizeAPY b) := by
  refine ⟨by simp [normalizeAPY], fun a b hab => ?_, fun a b ha hab hb => ?_⟩
  · unfold normalizeAPY
    by_cases hb : b ≤ 0
    · rw [if_pos (le_trans hab hb), if_pos hb]
    · rw [if_neg hb]
      by_cases ha : a ≤ 0
      · rw [if_pos ha]
        refine le_min (by norm_num) (div_nonneg ?_ logb10001_pos.le)
        exact Real.logb_nonneg (by norm_num) (by linarith)
      · rw [if_neg ha]
        push_neg at ha hb
        refine min_le_min le_rfl ((div_le_div_right logb10001_pos).mpr ?_)
        exact Real.logb_le_logb_of_le (by norm_num) (by linarith) (by linarith)
  · have hbpos : ¬ b ≤ 0 := by linarith
    unfold normalizeAPY
    rw [if_neg hbpos]
    have hble : Real.logb 10 (b + 1) / Real.logb 10 10001 ≤ 1 := by
      refine (div_le_one logb10001_pos).mpr ?_
      exact Real.logb_le_logb_of_le (by norm_num) (by linarith) (by linarith)
    rcases eq_or_lt_of_le ha with ha0 | hapos
    · rw [if_pos (le_of_eq ha0.symm)]
      refine lt_min (by norm_num) (div_pos ?_ logb10001_pos)
      exact Real.logb_pos (by norm_num) (by linarith)
    · rw [if_neg (by linarith)]
      have hlt : Real.logb 10 (a + 1) / Real.logb 10 10001 <
          Real.logb 10 (b + 1) / Real.logb 10 10001 := by
        refine (div_lt_div_right logb10001_pos).mpr ?_
        exact Real.logb_lt_logb (by norm_num) (by linarith) (by linarith)
      rw [min_eq_right (le_of_lt (lt_of_lt_of_le hlt hble)), min_eq_right hble]
      exact hlt

/-- Witness for C6 amended at the pairs (0, 1) and (1, 2). -/
theorem c6_normalizeAPY_monotone_witness :
    normalizeAPY 0 ≤ normalizeAPY 1 ∧ normalizeAPY 1 < normalizeAPY 2 :=
  ⟨c6_normalizeAPY_monotone.2.1 0 1 (by norm_num),
    c6_normalizeAPY_monotone.2.2 1 2 (by norm_num) (by norm_num) (by norm_num)⟩

/-! ## C3 and C9: the score formula -/

lemma chainMultiplier_ethereum : getChainSecurityMultiplier "ethereum" = 39/40 := by
  simp [getChainSecurityMultiplier, chainSecurityRatings, List.lookup]
  norm_num

lemma weightedSum_stability_only :
    weightedSum ⟨0, 0, 4, 0⟩ ⟨"ethereum", 0, 0, 0, 0, 0⟩ = 2 := by
  simp [weightedSum, calculateStability]
  norm_num

/-- C3 counterexample: with stability weight 4 (the weights are free
configuration values) and a pool whose stability term is the neutral 1/2, the
weighted sum is 2; the code yields the clamp of 2·0.975·100 = 195 to [0,100],
i.e. 100, while the claimed formula clamps the sum to [0,1] first and yields
97.5. -/
theorem c3_counterexample :
    calculateScore ⟨0, 0, 4, 0⟩ ⟨"ethereum", 0, 0, 0, 0, 0⟩ = 100 ∧
    specScoreFormula ⟨0, 0, 4, 0⟩ ⟨"ethereum", 0, 0, 0, 0, 0⟩ = 195/2 ∧
    calculateScore ⟨0, 0, 4, 0⟩ ⟨"ethereum", 0, 0, 0, 0, 0⟩ ≠
      specScoreFormula ⟨0, 0, 4, 0⟩ ⟨"ethereum", 0, 0, 0, 0, 0⟩ := by
  have h1 : calculateScore ⟨0, 0, 4, 0⟩ ⟨"ethereum", 0, 0, 0, 0, 0⟩ = 100 := by
    rw [calculateScore, weightedSum_stability_only, chainMultiplier_ethereum]
    norm_num
  have h2 : specScoreFormula ⟨0, 0, 4, 0⟩ ⟨"ethereum", 0, 0, 0, 0, 0⟩ = 195/2 := by
    rw [specScoreFormula, weightedSum_stability_only, chainMultiplier_ethereum]
    norm_num
  refine ⟨h1, h2, ?_⟩
  rw [h1, h2]
  norm_num

/-- C3 amended: CalculateScore clamps only once, at the end: it equals
clamp(weightedSum · chainMultiplier · 100, 0, 100) with no inner clamp of the
weighted sum; whenever the weighted sum already lies in [0,1] this coincides
with the claimed formula clamp(clamp01(weightedSum) · chainMultiplier · 100,
0, 100). -/
theorem c3_score_clamp_order (w : ScoringConfig) (p : Pool) :
    calculateScore w p =
      max 0 (min 100 (weightedSum w p * (getChainSecurityMultiplier p.chain : ℝ) * 100)) ∧
    (0 ≤ weightedSum w p → weightedSum w p ≤ 1 →
      calculateScore w p = specScoreFormula w p) := by
  refine ⟨rfl, fun h0 h1 => ?_⟩
  rw [calculateScore, specScoreFormula, min_eq_right h1, max_eq_right h0]

/-- Witness for C3 amended with the default weights 0.35/0.25/0.25/0.15 and a
pool whose weighted sum is 0.2. -/
theorem c3_score_clamp_order_witness :
    calculateScore ⟨0.35, 0.25, 0.25, 0.15⟩ ⟨"ethereum", 0, 0, 0, 0, 0⟩ =
      specScoreFormula ⟨0.35, 0.25, 0.25, 0.15⟩ ⟨"ethereum", 0, 0, 0, 0, 0⟩ :=
  (c3_score_clamp_order ⟨0.35, 0.25, 0.25, 0.15⟩ ⟨"ethereum", 0, 0, 0, 0, 0⟩).2
    (by norm_num [weightedSum, normalizeAPY, normalizeTVL, calculateStability,
      normalizeTrend])
    (by norm_num [weightedSum, normalizeAPY, normalizeTVL, calculateStability,
      normalizeTrend])

/-- C9: CalculateScore is a pure, deterministic function of the pool fields
and the weights, and (in particular for pools with non-negative finite
metrics) its value always lies in [0,100]. -/
theorem c9_score_pure_bounded (w w2 : ScoringConfig) (p q : Pool) :
    (w = w2 → p = q → calculateScore w p = calculateScore w2 q) ∧
    (0 ≤ p.apy → 0 ≤ p.tvl → 0 ≤ p.apyMean30d →
      0 ≤ calculateScore w p ∧ calculateScore w p ≤ 100) := by
  refine ⟨fun hw hp => by rw [hw, hp], fun h1 h2 h3 => ⟨le_max_left 0 _, ?_⟩⟩
  exact max_le (by norm_num) (min_le_left 100 _)

/-- Witness for C9 at equal concrete inputs with non-negative metrics. -/
theorem c9_score_pure_bounded_witness :
    calculateScore ⟨0.35, 0.25, 0.25, 0.15⟩ ⟨"ethereum", 5, 1000000, 50, 5, 1⟩ =
      calculateScore ⟨0.35, 0.25, 0.25, 0.15⟩ ⟨"ethereum", 5, 1000000, 50, 5, 1⟩ ∧
    0 ≤ calculateScore ⟨0.35, 0.25, 0.25, 0.15⟩ ⟨"ethereum", 5, 1000000, 50, 5, 1⟩ ∧
    calculateScore ⟨0.35, 0.25, 0.25, 0.15⟩ ⟨"ethereum", 5, 1000000, 50, 5, 1⟩ ≤ 100 :=
  ⟨(c9_score_pure_bounded ⟨0.35, 0.25, 0.25, 0.15⟩ ⟨0.35, 0.25, 0.25, 0.15⟩
      ⟨"ethereum", 5, 1000000, 50, 5, 1⟩ ⟨"ethereum", 5, 1000000, 50, 5, 1⟩).1 rfl rfl,
    ((c9_score_pure_bounded ⟨0.35, 0.25, 0.25, 0.15⟩ ⟨0.35, 0.25, 0.25, 0.15⟩
      ⟨"ethereum", 5, 1000000, 50, 5, 1⟩ ⟨"ethereum", 5, 1000000, 50, 5, 1⟩).2
      (by norm_num) (by norm_num) (by norm_num)).1,
    ((c9_score_pure_bounded ⟨0.35, 0.25, 0.25, 0.15⟩ ⟨0.35, 0.25, 0.25, 0.15⟩
      ⟨"ethereum", 5, 1000000, 50, 5, 1⟩ ⟨"ethereum", 5, 1000000, 50, 5, 1⟩).2
      (by norm_num) (by norm_num) (by norm_num)).2⟩

end DefiYield
